import Mathlib

/-!
Verification of the PostgreSQL toolset discovery and invocation core of
pgcopydb (`src/bin/pgcopydb/pgcmd.c`).

The C code is embedded shallowly:

* `PostgresPaths` mirrors the C struct of the same name (three executable
  path buffers plus a version string buffer).  Fixed-size C string buffers
  are modelled as unbounded Lean strings; truncation is modelled explicitly
  only where a property under scrutiny concerns it (the command-line
  rendering buffer of `pg_dump_db`).
* Interactions with the operating system (environment variables, the
  filesystem, subprocess execution, PATH scanning and symbolic-link
  deduplication, which live in `env_utils.c` / `file_utils.c` /
  `runprogram.h`, outside the embedded source) are collected in an `Env`
  record of function-valued fields, so every embedded function is a pure
  function of an `Env`.
* Log emission (`log_debug` .. `log_fatal`) is modelled as a list of
  structured `LogEntry` values returned alongside each function's result;
  each constructor corresponds to one log call site and carries the
  formatted arguments of that call.
* `exit(EXIT_CODE_PGCTL)` in `find_pg_commands` is modelled by the
  `FindOutcome.exited` constructor.

Every helper that is repository code not included under `src/` is modelled
from the specification and marked as such in its doc comment.
-/

set_option autoImplicit false
set_option maxRecDepth 100000

namespace Pgcmd

/-! ## Character-list helpers

Tiny structural helpers used by the modelled collaborators.  They are
written over `List Char` so that all evaluation is by structural recursion
(kernel-reducible). -/

/-- Split a character list on a separator character.  The result always has
at least one (possibly empty) chunk, like splitting a C string. -/
def splitOnChar (sep : Char) : List Char → List (List Char)
  | [] => [[]]
  | c :: cs =>
    let r := splitOnChar sep cs
    if c = sep then [] :: r
    else
      match r with
      | [] => [[c]]
      | w :: ws => (c :: w) :: ws

/-- Join chunks with a separator character (inverse of `splitOnChar`). -/
def joinWith (sep : Char) : List (List Char) → List Char
  | [] => []
  | [w] => w
  | w :: ws => w ++ sep :: joinWith sep ws

/-- Last element of a character list, if any. -/
def lastc : List Char → Option Char
  | [] => none
  | [c] => some c
  | _ :: c :: cs => lastc (c :: cs)

/-! ## Modelled collaborators

These functions live in `parsing.c`, `string_utils.c` and `file_utils.c`
of the repository, which are not part of the embedded source; they are
modelled from the specification. -/

/-- Modelled from the spec: `splitLines` (`string_utils.c`, not under
`src/`) splits a captured output buffer into its individual lines.
Captured buffers are modelled directly as their list of lines, so the
number of lines a buffer holds is the length of that list.  At the
`pg_config --bindir` call site the code expects "exactly one line of
output (more or fewer lines is a parse error)". -/
def splitLinesCount (outLines : List String) : Nat :=
  outLines.length

/-- Modelled from the spec: the bounded form of `splitLines`
(`string_utils.c`, not under `src/`): "a maximum line count bound applies;
excess lines are silently not reported rather than overflowing storage". -/
def splitLinesTake (outLines : List String) (bound : Nat) : List String :=
  outLines.take bound

/-- Word starts with a decimal digit. -/
def startsWithDigit (w : List Char) : Bool :=
  match w with
  | [] => false
  | c :: _ => c.isDigit

/-- Modelled from the spec: `parse_version_number` (`parsing.c`, not under
`src/`) must "extract a version token matching the product's version-string
grammar (major[.minor] numeric components, optionally followed by a
pre-release/build suffix)" from free-form version output such as
`psql (PostgreSQL) 14.9`.  We model the extracted token as the first
whitespace-separated word of the captured output that starts with a digit;
the parse fails (`none`) when no such token exists. -/
def parse_version_number (outLines : List String) : Option String :=
  let words := (outLines.map (fun l => splitOnChar ' ' l.data)).flatten
  (words.find? startsWithDigit).map String.mk

/-- Modelled from the spec: `join_path_components` (`file_utils.c`, not
under `src/`) joins a directory and a file name into a path. -/
def join_path_components (dir fileName : String) : String :=
  dir ++ "/" ++ fileName

/-- Directory part of a path: everything before the last path separator. -/
def dirname (path : String) : String :=
  String.mk (joinWith '/' ((splitOnChar '/' path.data).dropLast))

/-- Modelled from the spec: `path_in_same_directory` (`file_utils.c`, not
under `src/`) derives a sibling path by "substituting the file name within
the same directory". -/
def path_in_same_directory (existingPath newFileName : String) : String :=
  dirname existingPath ++ "/" ++ newFileName

/-! ## Modelled constants

From `defaults.h`, which is not under `src/`. -/

/-- Modelled from the spec: `BUFSIZE` (`defaults.h`, not under `src/`),
the capacity of the fixed-size rendering and line-splitting buffers. -/
def BUFSIZE : Nat := 1024

/-- Modelled from the spec: `EXIT_CODE_PGCTL` (`defaults.h`, not under
`src/`), "a distinct, fixed exit code reserved for control-tool-not-found
conditions". -/
def EXIT_CODE_PGCTL : Nat := 4

/-! ## Data model -/

/-- The C struct `PostgresPaths` of `pgcmd.h`: resolved absolute paths of
the three client executables plus the normalized version string. -/
structure PostgresPaths where
  psql : String
  pg_dump : String
  pg_restore : String
  pg_version : String
deriving DecidableEq, Repr

/-- The zero-initialized `PostgresPaths` record (`= { 0 }` in C). -/
def pgPathsZero : PostgresPaths :=
  { psql := "", pg_dump := "", pg_restore := "", pg_version := "" }

/-- The result of running an external program (`Program` of
`runprogram.h`): return code, saved `errno` on launch failure, and the two
captured output buffers.  A buffer is `none` when the C pointer is NULL;
captured buffers are modelled as their list of lines. -/
structure RunResult where
  returnCode : Int
  error : Int
  stdOut : Option (List String)
  stdErr : Option (List String)
deriving DecidableEq, Repr

/-- Log severities of the logging facility (`log.h`). -/
inductive LogLevel where
  | debug
  | info
  | warn
  | error
  | fatal
deriving DecidableEq, Repr

/-- One structured log record per log call site of `pgcmd.c`, carrying the
formatted arguments of that call. -/
inductive LogEntry where
  /-- pgcmd.c:45, `log_error`, failed to run `psql --version`. -/
  | psqlVersionRunError (psql : String)
  /-- Modelled from the spec: the parse-failure diagnostic emitted inside
  `parse_version_number` (pgcmd.c:56 "errors have already been logged"). -/
  | versionParseError
  /-- pgcmd.c:147, `log_error`, no file at the PG_CONFIG value. -/
  | pgConfigEnvFileNotFound (path : String)
  /-- pgcmd.c:160, `log_fatal`, version probe failed in the PG_CONFIG
  strategy. -/
  | pgConfigVersionFatal (psql : String)
  /-- pgcmd.c:165, `log_debug`, psql found following PG_CONFIG. -/
  | foundPsqlFromPgConfigEnv (version psql : String)
  /-- pgcmd.c:185, `log_debug`, pg_config file not found. -/
  | bindirFileNotFound (path : String)
  /-- pgcmd.c:197, `log_error`, failed to run `pg_config --bindir`. -/
  | bindirRunError (pg_config : String)
  /-- pgcmd.c:205, `log_error`, unable to parse `pg_config --bindir`
  output. -/
  | bindirParseError
  /-- pgcmd.c:218, `log_error`, no psql in the reported bindir. -/
  | psqlNotFoundFromPgConfig (psql pg_config : String)
  /-- pgcmd.c:255, `log_error`, symlink resolution failed. -/
  | symlinkResolveError
  /-- pgcmd.c:264, `log_warn`, neither psql nor pg_config in PATH. -/
  | noPsqlNoPgConfigWarn
  /-- pgcmd.c:278, `log_fatal`, version probe failed in the single
  pg_config strategy. -/
  | singlePgConfigVersionFatal (psql : String)
  /-- pgcmd.c:283, `log_debug`, psql found from the pg_config in PATH. -/
  | foundPsqlFromPathPgConfig (version psql pg_config : String)
  /-- pgcmd.c:294, `log_info`, more than one pg_config entry in PATH. -/
  | morePgConfigEntries
  /-- pgcmd.c:316, `log_warn`, a candidate's version probe failed. -/
  | candidateVersionWarn (psql : String)
  /-- pgcmd.c:321, `log_info`, a candidate with its probed version. -/
  | candidateFound (psql version : String)
  /-- pgcmd.c:326, `log_info`, hint to export PG_CONFIG. -/
  | hintExportPgConfig
  /-- pgcmd.c:377/381, `log_info`, the rendered command line (with the
  ellipsis marker already appended in the truncated case). -/
  | commandLine (line : String)
  /-- pgcmd.c:388, `log_error`, pg_dump exited non-zero. -/
  | pgDumpFailed (returnCode : Int)
  /-- pgcmd.c:415/427, `log_level`, one replayed line of captured
  output. -/
  | programOutputLine (level : LogLevel) (line : String)
deriving DecidableEq, Repr

/-- Severity of each log record, as fixed by its call site. -/
def LogEntry.level : LogEntry → LogLevel
  | .psqlVersionRunError _ => .error
  | .versionParseError => .error
  | .pgConfigEnvFileNotFound _ => .error
  | .pgConfigVersionFatal _ => .fatal
  | .foundPsqlFromPgConfigEnv _ _ => .debug
  | .bindirFileNotFound _ => .debug
  | .bindirRunError _ => .error
  | .bindirParseError => .error
  | .psqlNotFoundFromPgConfig _ _ => .error
  | .symlinkResolveError => .error
  | .noPsqlNoPgConfigWarn => .warn
  | .singlePgConfigVersionFatal _ => .fatal
  | .foundPsqlFromPathPgConfig _ _ _ => .debug
  | .morePgConfigEntries => .info
  | .candidateVersionWarn _ => .warn
  | .candidateFound _ _ => .info
  | .hintExportPgConfig => .info
  | .commandLine _ => .info
  | .pgDumpFailed _ => .error
  | .programOutputLine lvl _ => lvl

/-- The operating-system collaborators of `pgcmd.c`, collected in one
record so the embedded functions are pure:

* `pgConfigEnv` models `env_exists("PG_CONFIG")` together with
  `get_env_copy` (`env_utils.c`, not under `src/`): `some v` when the
  variable is set to `v`.
* `fileExists` models `file_exists` (`file_utils.c`, not under `src/`).
* `exec` models launching an argument vector and waiting for completion
  (`run_program` / `execute_subprogram` of `runprogram.h`, not under
  `src/`).
* `searchPathPsqlFirst` models `search_path_first("psql", ...)`
  (`file_utils.c`, not under `src/`): the first PATH match, if any.
* `searchPathPgConfig` models `search_path("pg_config", ...)`
  (`file_utils.c`, not under `src/`): `none` when the scan itself fails,
  otherwise the ordered matches.
* `dedupe` models `search_path_deduplicate_symlinks` (`file_utils.c`, not
  under `src/`): `none` when symbolic-link resolution fails, otherwise the
  surviving representatives. -/
structure Env where
  pgConfigEnv : Option String
  fileExists : String → Bool
  exec : List String → RunResult
  searchPathPsqlFirst : Option String
  searchPathPgConfig : Option (List String)
  dedupe : List String → Option (List String)

/-! ## The embedded functions of pgcmd.c -/

/-- pgcmd.c:35-65, `psql_version`: run `psql --version`, parse the version
token, and store it in `pgPaths->pg_version`.  Returns the updated record,
the C boolean result, and the emitted log records. -/
def psql_version (e : Env) (p : PostgresPaths) :
    PostgresPaths × Bool × List LogEntry :=
  let prog := e.exec [p.psql, "--version"]
  if prog.returnCode = 0 then
    match parse_version_number (prog.stdOut.getD []) with
    | some v => ({ p with pg_version := v }, true, [])
    | none => (p, false, [LogEntry.versionParseError])
  else
    (p, false, [LogEntry.psqlVersionRunError p.psql])

/-- pgcmd.c:178-227, `set_psql_from_config_bindir`: run
`pg_config --bindir`, require exactly one line of output, join the
reported directory with `"psql"`, require that path to exist, and store it
in `pgPaths->psql`. -/
def set_psql_from_config_bindir (e : Env) (p : PostgresPaths)
    (pg_config : String) : PostgresPaths × Bool × List LogEntry :=
  if e.fileExists pg_config then
    let prog := e.exec [pg_config, "--bindir"]
    if prog.returnCode = 0 then
      let outLines := prog.stdOut.getD []
      if splitLinesCount outLines = 1 then
        let psql := join_path_components (outLines.headD "") "psql"
        if e.fileExists psql then
          ({ p with psql := psql }, true, [])
        else
          (p, false, [LogEntry.psqlNotFoundFromPgConfig p.psql pg_config])
      else
        (p, false, [LogEntry.bindirParseError])
    else
      (p, false, [LogEntry.bindirRunError pg_config])
  else
    (p, false, [LogEntry.bindirFileNotFound pg_config])

/-- pgcmd.c:128-169, `set_psql_from_PG_CONFIG`: when the `PG_CONFIG`
environment variable is set, require it to name an existing file, resolve
psql through its reported bindir, and probe the version. -/
def set_psql_from_PG_CONFIG (e : Env) (p : PostgresPaths) :
    PostgresPaths × Bool × List LogEntry :=
  match e.pgConfigEnv with
  | none => (p, false, [])
  | some v =>
    if e.fileExists v then
      let r1 := set_psql_from_config_bindir e p v
      if r1.2.1 then
        let r2 := psql_version e r1.1
        if r2.2.1 then
          (r2.1, true, r1.2.2 ++ r2.2.2 ++
            [LogEntry.foundPsqlFromPgConfigEnv r2.1.pg_version r2.1.psql])
        else
          (r2.1, false, r1.2.2 ++ r2.2.2 ++
            [LogEntry.pgConfigVersionFatal r2.1.psql])
      else
        (r1.1, false, r1.2.2)
    else
      (p, false, [LogEntry.pgConfigEnvFileNotFound v])

/-- The zero-initialized candidate record used for each ambiguous
pg_config candidate (pgcmd.c:298-302). -/
def candidatePgPaths (c : String) : PostgresPaths :=
  { psql := c, pg_dump := "", pg_restore := "", pg_version := "" }

/-- pgcmd.c:296-324, the diagnostic enumeration of the ambiguous-candidate
branch: probe every candidate's version; a failed probe yields a warning
and the enumeration continues, a successful probe yields one entry with
path and version. -/
def probe_candidates (e : Env) : List String → List LogEntry
  | [] => []
  | c :: rest =>
    let r := psql_version e (candidatePgPaths c)
    (r.2.2 ++
      (if r.2.1 then [LogEntry.candidateFound r.1.psql r.1.pg_version]
       else [LogEntry.candidateVersionWarn c])) ++
    probe_candidates e rest

/-- pgcmd.c:242-333, `set_psql_from_pg_config`: scan PATH for `pg_config`,
deduplicate symbolic-link aliases, and branch on the number of surviving
candidates (0: fail, 1: resolve through its bindir, 2+: enumerate
diagnostics and fail). -/
def set_psql_from_pg_config (e : Env) (p : PostgresPaths) :
    PostgresPaths × Bool × List LogEntry :=
  match e.searchPathPgConfig with
  | none => (p, false, [])
  | some all_pg_configs =>
    match e.dedupe all_pg_configs with
    | none => (p, false, [LogEntry.symlinkResolveError])
    | some pg_configs =>
      match pg_configs with
      | [] => (p, false, [LogEntry.noPsqlNoPgConfigWarn])
      | [c] =>
        let r1 := set_psql_from_config_bindir e p c
        if r1.2.1 then
          let r2 := psql_version e r1.1
          if r2.2.1 then
            (r2.1, true, r1.2.2 ++ r2.2.2 ++
              [LogEntry.foundPsqlFromPathPgConfig r2.1.pg_version r2.1.psql c])
          else
            (r2.1, false, r1.2.2 ++ r2.2.2 ++
              [LogEntry.singlePgConfigVersionFatal r2.1.psql])
        else
          (r1.1, false, r1.2.2)
      | c1 :: c2 :: rest =>
        (p, false,
          LogEntry.morePgConfigEntries ::
            (probe_candidates e (c1 :: c2 :: rest) ++
              [LogEntry.hintExportPgConfig]))

/-- pgcmd.c:112-117, `set_postgres_commands`: derive the dump and restore
tool paths as siblings of the already-fixed psql path.  Note that this
performs no filesystem access at all. -/
def set_postgres_commands (p : PostgresPaths) : PostgresPaths :=
  { p with
    pg_dump := path_in_same_directory p.psql "pg_dump"
    pg_restore := path_in_same_directory p.psql "pg_restore" }

/-- Outcome of `find_pg_commands`: either a populated record, or process
termination with an exit code. -/
inductive FindOutcome where
  | ok (p : PostgresPaths)
  | exited (code : Nat)
deriving DecidableEq, Repr

/-- pgcmd.c:83-104, the PATH-based part of `find_pg_commands`: first the
direct search for psql, then the indirect search through pg_config. -/
def find_pg_commands_PATH (e : Env) (p1 : PostgresPaths) :
    FindOutcome × List LogEntry :=
  match e.searchPathPsqlFirst with
  | some found =>
    let r2 := psql_version e { p1 with psql := found }
    if r2.2.1 then
      (FindOutcome.ok (set_postgres_commands r2.1), r2.2.2)
    else
      (FindOutcome.exited EXIT_CODE_PGCTL, r2.2.2)
  | none =>
    let r3 := set_psql_from_pg_config e p1
    if r3.2.1 then
      (FindOutcome.ok (set_postgres_commands r3.1), r3.2.2)
    else
      (FindOutcome.exited EXIT_CODE_PGCTL, r3.2.2)

/-- pgcmd.c:73-105, `find_pg_commands`: the ordered strategy chain.  When
`set_psql_from_PG_CONFIG` returns false, the code falls through to the
PATH-based strategies. -/
def find_pg_commands (e : Env) (p : PostgresPaths) :
    FindOutcome × List LogEntry :=
  let r1 := set_psql_from_PG_CONFIG e p
  if r1.2.1 then
    (FindOutcome.ok (set_postgres_commands r1.1), r1.2.2)
  else
    let rest := find_pg_commands_PATH e r1.1
    (rest.1, r1.2.2 ++ rest.2)

/-! ## pg_dump invocation -/

/-- pgcmd.c:345-361, the argument vector built by `pg_dump_db`. -/
def pg_dump_args (p : PostgresPaths) (pguri dumpSection filename : String) :
    List String :=
  [p.pg_dump, "-Fc", "-d", pguri, "--section", dumpSection,
   "--file", filename]

/-- Modelled from the spec: `snprintf_program_command_line`
(`runprogram.h`, not under `src/`) "renders the full command line as a
single display string", "returning the number of characters that would
have been written"; the rendering joins the argument vector with single
spaces. -/
def render_command_line (args : List String) : String :=
  String.mk (joinWith ' ' (args.map String.data))

/-- pgcmd.c:371-382: the command line actually logged.  `snprintf` into
the `char command[BUFSIZE]` buffer keeps at most `BUFSIZE - 1` characters;
when the full rendering would not fit (`commandSize >= BUFSIZE`), the
truncated buffer contents are logged with `"..."` appended. -/
def logged_command_line (args : List String) : String :=
  let full := render_command_line args
  if BUFSIZE ≤ full.data.length then
    String.mk (full.data.take (BUFSIZE - 1)) ++ "..."
  else
    full

/-- pgcmd.c:404-430, `log_program_output`: replay each captured line as a
separate log record at the given severity; a NULL buffer contributes
nothing. -/
def log_program_output (prog : RunResult) (outLogLevel errorLogLevel : LogLevel) :
    List LogEntry :=
  (match prog.stdOut with
   | none => []
   | some ls =>
     (splitLinesTake ls BUFSIZE).map
       (fun l => LogEntry.programOutputLine outLogLevel l)) ++
  (match prog.stdErr with
   | none => []
   | some ls =>
     (splitLinesTake ls BUFSIZE).map
       (fun l => LogEntry.programOutputLine errorLogLevel l))

/-- pgcmd.c:339-398, `pg_dump_db`: build the pg_dump argument vector, log
the (possibly truncated) command line, run the program, and on a non-zero
exit replay its captured output at error severity and return false.  (The
C code also exports `PGCONNECT_TIMEOUT` to the child's environment before
launching; that side effect is honored by the external tool and has no
bearing on the embedded results.) -/
def pg_dump_db (e : Env) (p : PostgresPaths)
    (pguri dumpSection filename : String) : Bool × List LogEntry :=
  let args := pg_dump_args p pguri dumpSection filename
  let logged := LogEntry.commandLine (logged_command_line args)
  let prog := e.exec args
  if prog.returnCode = 0 then
    (true, [logged])
  else
    (false, logged :: LogEntry.pgDumpFailed prog.returnCode ::
      log_program_output prog LogLevel.error LogLevel.error)

/-! ## General lemmas about the embedded functions -/

/-- A parsed version token is never the empty string: the extracted word
starts with a digit. -/
theorem parse_version_number_ne_empty {ls : List String} {v : String}
    (h : parse_version_number ls = some v) : v ≠ "" := by
  have h2 : (((ls.map (fun l => splitOnChar ' ' l.data)).flatten).find?
      startsWithDigit).map String.mk = some v := h
  clear h
  rename' h2 => h
  cases hf : ((ls.map (fun l => splitOnChar ' ' l.data)).flatten).find? startsWithDigit with
  | none => rw [hf] at h; simp at h
  | some w =>
    rw [hf] at h
    have hmk : String.mk w = v := by simpa using h
    have hw := List.find?_some hf
    cases w with
    | nil => simp [startsWithDigit] at hw
    | cons c cs =>
      intro hv
      rw [← hmk] at hv
      have hd := congrArg String.data hv
      simp at hd

/-- Case analysis on `psql_version`: a failed probe leaves the record
untouched; a successful probe only sets `pg_version`, to the token parsed
from the probed client's version output. -/
theorem psql_version_spec (e : Env) (p : PostgresPaths) :
    ((psql_version e p).2.1 = false → (psql_version e p).1 = p) ∧
    ((psql_version e p).2.1 = true →
      (psql_version e p).1.psql = p.psql ∧
      (psql_version e p).1.pg_dump = p.pg_dump ∧
      (psql_version e p).1.pg_restore = p.pg_restore ∧
      (e.exec [p.psql, "--version"]).returnCode = 0 ∧
      parse_version_number ((e.exec [p.psql, "--version"]).stdOut.getD []) =
        some (psql_version e p).1.pg_version) := by
  by_cases h : (e.exec [p.psql, "--version"]).returnCode = 0
  · cases hp : parse_version_number ((e.exec [p.psql, "--version"]).stdOut.getD []) with
    | none => simp [psql_version, h, hp]
    | some v => simp [psql_version, h, hp]
  · simp [psql_version, h]

theorem psql_version_fail_frame {e : Env} {p : PostgresPaths}
    (h : (psql_version e p).2.1 = false) : (psql_version e p).1 = p :=
  (psql_version_spec e p).1 h

theorem psql_version_ok_psql {e : Env} {p : PostgresPaths}
    (h : (psql_version e p).2.1 = true) : (psql_version e p).1.psql = p.psql :=
  ((psql_version_spec e p).2 h).1

theorem psql_version_ok_parse {e : Env} {p : PostgresPaths}
    (h : (psql_version e p).2.1 = true) :
    parse_version_number ((e.exec [p.psql, "--version"]).stdOut.getD []) =
      some (psql_version e p).1.pg_version :=
  ((psql_version_spec e p).2 h).2.2.2.2

theorem set_postgres_commands_psql (p : PostgresPaths) :
    (set_postgres_commands p).psql = p.psql := rfl

theorem set_postgres_commands_version (p : PostgresPaths) :
    (set_postgres_commands p).pg_version = p.pg_version := rfl

theorem set_postgres_commands_dump (p : PostgresPaths) :
    (set_postgres_commands p).pg_dump = path_in_same_directory p.psql "pg_dump" := rfl

theorem set_postgres_commands_restore (p : PostgresPaths) :
    (set_postgres_commands p).pg_restore = path_in_same_directory p.psql "pg_restore" := rfl

/-- When the PG_CONFIG strategy succeeds, the stored version string is the
token parsed from the version output of the psql binary it selected. -/
theorem set_psql_from_PG_CONFIG_ok_parse (e : Env) (p : PostgresPaths)
    (h : (set_psql_from_PG_CONFIG e p).2.1 = true) :
    parse_version_number
      ((e.exec [(set_psql_from_PG_CONFIG e p).1.psql, "--version"]).stdOut.getD [])
      = some (set_psql_from_PG_CONFIG e p).1.pg_version := by
  cases hv : e.pgConfigEnv with
  | none => simp [set_psql_from_PG_CONFIG, hv] at h
  | some v =>
    by_cases hf : e.fileExists v
    · by_cases hb : (set_psql_from_config_bindir e p v).2.1 = true
      · by_cases hp : (psql_version e (set_psql_from_config_bindir e p v).1).2.1 = true
        · have hres : (set_psql_from_PG_CONFIG e p).1
              = (psql_version e (set_psql_from_config_bindir e p v).1).1 := by
            simp [set_psql_from_PG_CONFIG, hv, hf, hb, hp]
          rw [hres, psql_version_ok_psql hp]
          exact psql_version_ok_parse hp
        · exfalso; simp [set_psql_from_PG_CONFIG, hv, hf, hb, hp] at h
      · exfalso; simp [set_psql_from_PG_CONFIG, hv, hf, hb] at h
    · exfalso; simp [set_psql_from_PG_CONFIG, hv, hf] at h

/-- When the indirect strategy succeeds, the stored version string is the
token parsed from the version output of the psql binary it selected. -/
theorem set_psql_from_pg_config_ok_parse (e : Env) (p : PostgresPaths)
    (h : (set_psql_from_pg_config e p).2.1 = true) :
    parse_version_number
      ((e.exec [(set_psql_from_pg_config e p).1.psql, "--version"]).stdOut.getD [])
      = some (set_psql_from_pg_config e p).1.pg_version := by
  cases hs : e.searchPathPgConfig with
  | none => simp [set_psql_from_pg_config, hs] at h
  | some all =>
    cases hd : e.dedupe all with
    | none => simp [set_psql_from_pg_config, hs, hd] at h
    | some cs =>
      rcases cs with _ | ⟨c, _ | ⟨c2, rest⟩⟩
      · simp [set_psql_from_pg_config, hs, hd] at h
      · by_cases hb : (set_psql_from_config_bindir e p c).2.1 = true
        · by_cases hp : (psql_version e (set_psql_from_config_bindir e p c).1).2.1 = true
          · have hres : (set_psql_from_pg_config e p).1
                = (psql_version e (set_psql_from_config_bindir e p c).1).1 := by
              simp [set_psql_from_pg_config, hs, hd, hb, hp]
            rw [hres, psql_version_ok_psql hp]
            exact psql_version_ok_parse hp
          · exfalso; simp [set_psql_from_pg_config, hs, hd, hb, hp] at h
        · exfalso; simp [set_psql_from_pg_config, hs, hd, hb] at h
      · simp [set_psql_from_pg_config, hs, hd] at h

/-- Shape of every successful resolution: the sibling tool paths are the
sibling derivations from the selected psql path, and the version string is
the token parsed from that psql's version output. -/
theorem find_ok_spec (e : Env) (p : PostgresPaths) (out : PostgresPaths)
    (h : (find_pg_commands e p).1 = FindOutcome.ok out) :
    out.pg_dump = path_in_same_directory out.psql "pg_dump" ∧
    out.pg_restore = path_in_same_directory out.psql "pg_restore" ∧
    parse_version_number ((e.exec [out.psql, "--version"]).stdOut.getD [])
      = some out.pg_version := by
  by_cases h1 : (set_psql_from_PG_CONFIG e p).2.1 = true
  · have hout : set_postgres_commands (set_psql_from_PG_CONFIG e p).1 = out := by
      have h2 := h
      simp [find_pg_commands, h1] at h2
      exact h2
    rw [← hout]
    exact ⟨rfl, rfl, set_psql_from_PG_CONFIG_ok_parse e p h1⟩
  · have hrest : (find_pg_commands_PATH e (set_psql_from_PG_CONFIG e p).1).1
        = FindOutcome.ok out := by
      have h2 := h
      simp [find_pg_commands, h1] at h2
      exact h2
    cases hq : e.searchPathPsqlFirst with
    | some q =>
      by_cases hp :
          (psql_version e { (set_psql_from_PG_CONFIG e p).1 with psql := q }).2.1 = true
      · have hout : set_postgres_commands
            (psql_version e { (set_psql_from_PG_CONFIG e p).1 with psql := q }).1 = out := by
          have h2 := hrest
          simp [find_pg_commands_PATH, hq, hp] at h2
          exact h2
        rw [← hout]
        refine ⟨rfl, rfl, ?_⟩
        show parse_version_number
            ((e.exec [(psql_version e { (set_psql_from_PG_CONFIG e p).1 with psql := q }).1.psql,
              "--version"]).stdOut.getD [])
          = some (psql_version e { (set_psql_from_PG_CONFIG e p).1 with psql := q }).1.pg_version
        rw [psql_version_ok_psql hp]
        exact psql_version_ok_parse hp
      · simp [find_pg_commands_PATH, hq, hp] at hrest
    | none =>
      by_cases hp : (set_psql_from_pg_config e (set_psql_from_PG_CONFIG e p).1).2.1 = true
      · have hout : set_postgres_commands
            (set_psql_from_pg_config e (set_psql_from_PG_CONFIG e p).1).1 = out := by
          have h2 := hrest
          simp [find_pg_commands_PATH, hq, hp] at h2
          exact h2
        rw [← hout]
        exact ⟨rfl, rfl, set_psql_from_pg_config_ok_parse e _ hp⟩
      · simp [find_pg_commands_PATH, hq, hp] at hrest

/-- A successful bindir lookup stores a psql path whose existence it has
just checked (pgcmd.c:216-224). -/
theorem bindir_ok_exists (e : Env) (p : PostgresPaths) (cfg : String)
    (h : (set_psql_from_config_bindir e p cfg).2.1 = true) :
    e.fileExists (set_psql_from_config_bindir e p cfg).1.psql = true := by
  simp only [set_psql_from_config_bindir] at h ⊢
  by_cases h1 : e.fileExists cfg = true
  case neg => rw [if_neg h1] at h; simp at h
  rw [if_pos h1] at h ⊢
  by_cases h2 : (e.exec [cfg, "--bindir"]).returnCode = 0
  case neg => rw [if_neg h2] at h; simp at h
  rw [if_pos h2] at h ⊢
  by_cases h3 : splitLinesCount ((e.exec [cfg, "--bindir"]).stdOut.getD []) = 1
  case neg => rw [if_neg h3] at h; simp at h
  rw [if_pos h3] at h ⊢
  by_cases h4 : e.fileExists
      (join_path_components (((e.exec [cfg, "--bindir"]).stdOut.getD []).headD "")
        "psql") = true
  case neg => rw [if_neg h4] at h; simp at h
  rw [if_pos h4]
  exact h4

/-- When the PG_CONFIG strategy succeeds, the selected psql path exists on
the filesystem (the bindir step checked it). -/
theorem set_psql_from_PG_CONFIG_ok_exists (e : Env) (p : PostgresPaths)
    (h : (set_psql_from_PG_CONFIG e p).2.1 = true) :
    e.fileExists (set_psql_from_PG_CONFIG e p).1.psql = true := by
  cases hv : e.pgConfigEnv with
  | none => simp [set_psql_from_PG_CONFIG, hv] at h
  | some v =>
    by_cases hf : e.fileExists v
    · by_cases hb : (set_psql_from_config_bindir e p v).2.1 = true
      · by_cases hp : (psql_version e (set_psql_from_config_bindir e p v).1).2.1 = true
        · have hres : (set_psql_from_PG_CONFIG e p).1
              = (psql_version e (set_psql_from_config_bindir e p v).1).1 := by
            simp [set_psql_from_PG_CONFIG, hv, hf, hb, hp]
          rw [hres, psql_version_ok_psql hp]
          exact bindir_ok_exists e p v hb
        · exfalso; simp [set_psql_from_PG_CONFIG, hv, hf, hb, hp] at h
      · exfalso; simp [set_psql_from_PG_CONFIG, hv, hf, hb] at h
    · exfalso; simp [set_psql_from_PG_CONFIG, hv, hf] at h

/-- When the indirect strategy succeeds, the selected psql path exists on
the filesystem (the bindir step checked it). -/
theorem set_psql_from_pg_config_ok_exists (e : Env) (p : PostgresPaths)
    (h : (set_psql_from_pg_config e p).2.1 = true) :
    e.fileExists (set_psql_from_pg_config e p).1.psql = true := by
  cases hs : e.searchPathPgConfig with
  | none => simp [set_psql_from_pg_config, hs] at h
  | some all =>
    cases hd : e.dedupe all with
    | none => simp [set_psql_from_pg_config, hs, hd] at h
    | some cs =>
      rcases cs with _ | ⟨c, _ | ⟨c2, rest⟩⟩
      · simp [set_psql_from_pg_config, hs, hd] at h
      · by_cases hb : (set_psql_from_config_bindir e p c).2.1 = true
        · by_cases hp : (psql_version e (set_psql_from_config_bindir e p c).1).2.1 = true
          · have hres : (set_psql_from_pg_config e p).1
                = (psql_version e (set_psql_from_config_bindir e p c).1).1 := by
              simp [set_psql_from_pg_config, hs, hd, hb, hp]
            rw [hres, psql_version_ok_psql hp]
            exact bindir_ok_exists e p c hb
          · exfalso; simp [set_psql_from_pg_config, hs, hd, hb, hp] at h
        · exfalso; simp [set_psql_from_pg_config, hs, hd, hb] at h
      · simp [set_psql_from_pg_config, hs, hd] at h

/-- On every success path the selected psql path exists on the filesystem:
the two bindir-based strategies check it explicitly, and the direct PATH
strategy selects a search hit, which exists by the PathSearch contract
("return every location on the process search path where a file of that
name is executable" — `search_path_first` lives in `file_utils.c`, not
under `src/`), taken here as the hypothesis on search hits. -/
theorem find_ok_psql_exists (e : Env) (p : PostgresPaths) (out : PostgresPaths)
    (hsearch : ∀ q, e.searchPathPsqlFirst = some q → e.fileExists q = true)
    (h : (find_pg_commands e p).1 = FindOutcome.ok out) :
    e.fileExists out.psql = true := by
  by_cases h1 : (set_psql_from_PG_CONFIG e p).2.1 = true
  · have hout : set_postgres_commands (set_psql_from_PG_CONFIG e p).1 = out := by
      have h2 := h
      simp [find_pg_commands, h1] at h2
      exact h2
    rw [← hout]
    show e.fileExists (set_psql_from_PG_CONFIG e p).1.psql = true
    exact set_psql_from_PG_CONFIG_ok_exists e p h1
  · have hrest : (find_pg_commands_PATH e (set_psql_from_PG_CONFIG e p).1).1
        = FindOutcome.ok out := by
      have h2 := h
      simp [find_pg_commands, h1] at h2
      exact h2
    cases hq : e.searchPathPsqlFirst with
    | some q =>
      by_cases hp :
          (psql_version e { (set_psql_from_PG_CONFIG e p).1 with psql := q }).2.1 = true
      · have hout : set_postgres_commands
            (psql_version e { (set_psql_from_PG_CONFIG e p).1 with psql := q }).1 = out := by
          have h2 := hrest
          simp [find_pg_commands_PATH, hq, hp] at h2
          exact h2
        rw [← hout]
        show e.fileExists
          (psql_version e { (set_psql_from_PG_CONFIG e p).1 with psql := q }).1.psql = true
        rw [psql_version_ok_psql hp]
        exact hsearch q hq
      · simp [find_pg_commands_PATH, hq, hp] at hrest
    | none =>
      by_cases hp : (set_psql_from_pg_config e (set_psql_from_PG_CONFIG e p).1).2.1 = true
      · have hout : set_postgres_commands
            (set_psql_from_pg_config e (set_psql_from_PG_CONFIG e p).1).1 = out := by
          have h2 := hrest
          simp [find_pg_commands_PATH, hq, hp] at h2
          exact h2
        rw [← hout]
        show e.fileExists
          (set_psql_from_pg_config e (set_psql_from_PG_CONFIG e p).1).1.psql = true
        exact set_psql_from_pg_config_ok_exists e _ hp
      · simp [find_pg_commands_PATH, hq, hp] at hrest

/-! ## Concrete environments used by witnesses and counterexamples -/

/-- An environment in which every subprocess launch fails. -/
def envProbeFail : Env where
  pgConfigEnv := none
  fileExists := fun _ => false
  exec := fun _ => { returnCode := 1, error := 2, stdOut := none, stdErr := none }
  searchPathPsqlFirst := none
  searchPathPgConfig := none
  dedupe := fun l => some l

/-- An environment whose pg_config exists but reports two lines of
`--bindir` output. -/
def envTwoLineBindir : Env where
  pgConfigEnv := none
  fileExists := fun s => s == "/usr/bin/pg_config"
  exec := fun args =>
    if args = ["/usr/bin/pg_config", "--bindir"] then
      { returnCode := 0, error := 0, stdOut := some ["/a", "/b"], stdErr := none }
    else
      { returnCode := 1, error := 2, stdOut := none, stdErr := none }
  searchPathPsqlFirst := none
  searchPathPgConfig := none
  dedupe := fun l => some l

/-! ## Claim theorems -/

/-- C10: `psql_version` modifies no field of the caller's `PostgresPaths`
record other than the version string, and only after both the subprocess
run and the version parse have succeeded; whenever it returns false the
whole record is left exactly as it was. -/
theorem psql_version_frame_effect (e : Env) (p : PostgresPaths) :
    ((psql_version e p).2.1 = false → (psql_version e p).1 = p) ∧
    ((psql_version e p).2.1 = true →
      (psql_version e p).1.psql = p.psql ∧
      (psql_version e p).1.pg_dump = p.pg_dump ∧
      (psql_version e p).1.pg_restore = p.pg_restore ∧
      (e.exec [p.psql, "--version"]).returnCode = 0 ∧
      parse_version_number ((e.exec [p.psql, "--version"]).stdOut.getD []) =
        some (psql_version e p).1.pg_version) :=
  psql_version_spec e p

/-- Witness for C10 at a concrete failing probe. -/
theorem psql_version_frame_effect_witness :
    (psql_version envProbeFail pgPathsZero).2.1 = false ∧
    (psql_version envProbeFail pgPathsZero).1 = pgPathsZero :=
  ⟨by decide, (psql_version_frame_effect envProbeFail pgPathsZero).1 (by decide)⟩

/-- C7: when directory discovery runs `pg_config --bindir`, any captured
standard output with zero lines or with two or more lines makes the
strategy fail with the parse-error diagnostic, leaving the record
untouched, rather than using the first line. -/
theorem bindir_requires_single_line (e : Env) (p : PostgresPaths) (pg_config : String)
    (h1 : e.fileExists pg_config = true)
    (h2 : (e.exec [pg_config, "--bindir"]).returnCode = 0)
    (h3 : splitLinesCount ((e.exec [pg_config, "--bindir"]).stdOut.getD []) ≠ 1) :
    set_psql_from_config_bindir e p pg_config
      = (p, false, [LogEntry.bindirParseError]) := by
  simp [set_psql_from_config_bindir, h1, h2, h3]

/-- Witness for C7 at a concrete two-line output. -/
theorem bindir_requires_single_line_witness :
    splitLinesCount ((envTwoLineBindir.exec ["/usr/bin/pg_config", "--bindir"]).stdOut.getD []) = 2 ∧
    set_psql_from_config_bindir envTwoLineBindir pgPathsZero "/usr/bin/pg_config"
      = (pgPathsZero, false, [LogEntry.bindirParseError]) :=
  ⟨by decide,
   bindir_requires_single_line envTwoLineBindir pgPathsZero "/usr/bin/pg_config"
     (by decide) (by decide) (by decide)⟩

/-- An environment with no PG_CONFIG, psql first on PATH, and every
subprocess launch failing. -/
def envDirectProbeFail : Env where
  pgConfigEnv := none
  fileExists := fun _ => true
  exec := fun _ => { returnCode := 1, error := 2, stdOut := none, stdErr := none }
  searchPathPsqlFirst := some "/usr/bin/psql"
  searchPathPgConfig := none
  dedupe := fun l => some l

/-- An environment where PG_CONFIG names a missing file while a working
psql sits on PATH. -/
def envHintFailsPathWorks : Env where
  pgConfigEnv := some "/nope/pg_config"
  fileExists := fun s => s == "/usr/bin/psql"
  exec := fun args =>
    if args = ["/usr/bin/psql", "--version"] then
      { returnCode := 0, error := 0,
        stdOut := some ["psql (PostgreSQL) 14.9"], stdErr := none }
    else
      { returnCode := 1, error := 2, stdOut := none, stdErr := none }
  searchPathPsqlFirst := some "/usr/bin/psql"
  searchPathPgConfig := none
  dedupe := fun l => some l

/-- An environment where a working psql is first on PATH but neither
sibling tool exists on the filesystem. -/
def envMissingSiblings : Env where
  pgConfigEnv := none
  fileExists := fun s => s == "/usr/bin/psql"
  exec := fun args =>
    if args = ["/usr/bin/psql", "--version"] then
      { returnCode := 0, error := 0,
        stdOut := some ["psql (PostgreSQL) 14.9"], stdErr := none }
    else
      { returnCode := 1, error := 2, stdOut := none, stdErr := none }
  searchPathPsqlFirst := some "/usr/bin/psql"
  searchPathPgConfig := none
  dedupe := fun l => some l

/-- The record resolved in `envMissingSiblings`. -/
def pgResolvedMissingSiblings : PostgresPaths :=
  { psql := "/usr/bin/psql", pg_dump := "/usr/bin/pg_dump",
    pg_restore := "/usr/bin/pg_restore", pg_version := "14.9" }

/-- An environment in which every launch exits non-zero with one captured
line on each stream. -/
def envDumpFails : Env where
  pgConfigEnv := none
  fileExists := fun _ => true
  exec := fun _ =>
    { returnCode := 1, error := 0,
      stdOut := some ["out line"], stdErr := some ["err line"] }
  searchPathPsqlFirst := none
  searchPathPgConfig := none
  dedupe := fun l => some l

/-- C4: when psql is found directly on the search path but its version
probe fails, resolution terminates with `EXIT_CODE_PGCTL` instead of
falling through to the indirect strategy; the same fixed code is used when
no strategy yields a result. -/
theorem direct_probe_failure_exits (e : Env) (p : PostgresPaths) (q : String)
    (hpg : (set_psql_from_PG_CONFIG e p).2.1 = false)
    (hq : e.searchPathPsqlFirst = some q)
    (hver : (psql_version e { (set_psql_from_PG_CONFIG e p).1 with psql := q }).2.1 = false) :
    (find_pg_commands e p).1 = FindOutcome.exited EXIT_CODE_PGCTL ∧
    ∀ e2 p2, (set_psql_from_PG_CONFIG e2 p2).2.1 = false →
      e2.searchPathPsqlFirst = none →
      (set_psql_from_pg_config e2 (set_psql_from_PG_CONFIG e2 p2).1).2.1 = false →
      (find_pg_commands e2 p2).1 = FindOutcome.exited EXIT_CODE_PGCTL := by
  constructor
  · simp [find_pg_commands, hpg, find_pg_commands_PATH, hq, hver]
  · intro e2 p2 h1 h2 h3
    simp [find_pg_commands, h1, find_pg_commands_PATH, h2, h3]

/-- Witness for C4 at a concrete environment. -/
theorem direct_probe_failure_exits_witness :
    envDirectProbeFail.searchPathPsqlFirst = some "/usr/bin/psql" ∧
    (find_pg_commands envDirectProbeFail pgPathsZero).1
      = FindOutcome.exited EXIT_CODE_PGCTL :=
  ⟨by decide,
   (direct_probe_failure_exits envDirectProbeFail pgPathsZero "/usr/bin/psql"
     (by decide) (by decide) (by decide)).1⟩

/-- C1 counterexample: with PG_CONFIG set to a non-existent file the
explicit-hint strategy fails, yet resolution succeeds through the direct
PATH strategy — a later strategy is attempted. -/
theorem explicit_hint_failure_counterexample :
    envHintFailsPathWorks.pgConfigEnv = some "/nope/pg_config" ∧
    (set_psql_from_PG_CONFIG envHintFailsPathWorks pgPathsZero).2.1 = false ∧
    (find_pg_commands envHintFailsPathWorks pgPathsZero).1 = FindOutcome.ok
      { psql := "/usr/bin/psql", pg_dump := "/usr/bin/pg_dump",
        pg_restore := "/usr/bin/pg_restore", pg_version := "14.9" } :=
  ⟨rfl, by decide, by decide⟩

/-- C1 amended: when PG_CONFIG is set but the explicit-hint strategy fails
at any sub-step, `find_pg_commands` falls through to the later strategies;
in particular, if psql is then found on PATH and its probe succeeds, the
whole resolution succeeds with that psql. -/
theorem explicit_hint_failure_falls_through (e : Env) (p : PostgresPaths) (v q : String)
    (_hset : e.pgConfigEnv = some v)
    (hfail : (set_psql_from_PG_CONFIG e p).2.1 = false)
    (hq : e.searchPathPsqlFirst = some q)
    (hver : (psql_version e { (set_psql_from_PG_CONFIG e p).1 with psql := q }).2.1 = true) :
    ∃ out, (find_pg_commands e p).1 = FindOutcome.ok out ∧ out.psql = q := by
  refine ⟨set_postgres_commands
    (psql_version e { (set_psql_from_PG_CONFIG e p).1 with psql := q }).1, ?_, ?_⟩
  · simp [find_pg_commands, hfail, find_pg_commands_PATH, hq, hver]
  · show (psql_version e { (set_psql_from_PG_CONFIG e p).1 with psql := q }).1.psql = q
    rw [psql_version_ok_psql hver]

/-- Witness for the amended C1 at a concrete environment. -/
theorem explicit_hint_failure_falls_through_witness :
    ∃ out, (find_pg_commands envHintFailsPathWorks pgPathsZero).1 = FindOutcome.ok out ∧
      out.psql = "/usr/bin/psql" :=
  explicit_hint_failure_falls_through envHintFailsPathWorks pgPathsZero
    "/nope/pg_config" "/usr/bin/psql" rfl (by decide) rfl (by decide)

/-- C5 counterexample: resolution succeeds while neither derived sibling
tool path exists on the filesystem, so a populated record does not imply
all three paths exist. -/
theorem resolved_toolset_counterexample :
    (find_pg_commands envMissingSiblings pgPathsZero).1
      = FindOutcome.ok pgResolvedMissingSiblings ∧
    envMissingSiblings.fileExists pgResolvedMissingSiblings.pg_dump = false ∧
    envMissingSiblings.fileExists pgResolvedMissingSiblings.pg_restore = false :=
  ⟨by decide, by decide, by decide⟩

/-- C5 amended: for every successful resolution (in an environment whose
PATH search returns only existing executables, the PathSearch contract),
the interactive client's path exists on the filesystem, the version string
is non-empty and equals the token parsed by probing that client binary,
and the dump/restore tool paths are the fixed-name sibling derivations in
the client's directory; the existence of the two derived sibling paths is
not guaranteed (it is never checked). -/
theorem resolved_toolset_spec (e : Env) (p : PostgresPaths) (out : PostgresPaths)
    (hsearch : ∀ q, e.searchPathPsqlFirst = some q → e.fileExists q = true)
    (h : (find_pg_commands e p).1 = FindOutcome.ok out) :
    e.fileExists out.psql = true ∧
    out.pg_version ≠ "" ∧
    parse_version_number ((e.exec [out.psql, "--version"]).stdOut.getD [])
      = some out.pg_version ∧
    out.pg_dump = path_in_same_directory out.psql "pg_dump" ∧
    out.pg_restore = path_in_same_directory out.psql "pg_restore" := by
  obtain ⟨h1, h2, h3⟩ := find_ok_spec e p out h
  exact ⟨find_ok_psql_exists e p out hsearch h,
    parse_version_number_ne_empty h3, h3, h1, h2⟩

/-- Witness for the amended C5 at a concrete environment. -/
theorem resolved_toolset_spec_witness :
    envMissingSiblings.fileExists pgResolvedMissingSiblings.psql = true ∧
    pgResolvedMissingSiblings.pg_version ≠ "" ∧
    parse_version_number
      ((envMissingSiblings.exec [pgResolvedMissingSiblings.psql, "--version"]).stdOut.getD [])
      = some pgResolvedMissingSiblings.pg_version ∧
    pgResolvedMissingSiblings.pg_dump
      = path_in_same_directory pgResolvedMissingSiblings.psql "pg_dump" ∧
    pgResolvedMissingSiblings.pg_restore
      = path_in_same_directory pgResolvedMissingSiblings.psql "pg_restore" :=
  resolved_toolset_spec envMissingSiblings pgPathsZero pgResolvedMissingSiblings
    (by
      intro q hq
      have h2 : some "/usr/bin/psql" = some q := hq
      rw [← Option.some.inj h2]
      decide)
    (by decide)

/-- C9: `pg_dump_db` returns true exactly when the child exits zero; on a
non-zero exit it returns false and every captured line of both streams (up
to the line-count bound) is replayed as a separate error-severity log
record. -/
theorem pg_dump_db_failure_reporting (e : Env) (p : PostgresPaths)
    (pguri dumpSection filename : String) :
    ((pg_dump_db e p pguri dumpSection filename).1 = true ↔
      (e.exec (pg_dump_args p pguri dumpSection filename)).returnCode = 0) ∧
    ((e.exec (pg_dump_args p pguri dumpSection filename)).returnCode ≠ 0 →
      (pg_dump_db e p pguri dumpSection filename).1 = false ∧
      (∀ line ∈ splitLinesTake
          ((e.exec (pg_dump_args p pguri dumpSection filename)).stdOut.getD []) BUFSIZE,
        LogEntry.programOutputLine LogLevel.error line
          ∈ (pg_dump_db e p pguri dumpSection filename).2) ∧
      (∀ line ∈ splitLinesTake
          ((e.exec (pg_dump_args p pguri dumpSection filename)).stdErr.getD []) BUFSIZE,
        LogEntry.programOutputLine LogLevel.error line
          ∈ (pg_dump_db e p pguri dumpSection filename).2)) := by
  by_cases h : (e.exec (pg_dump_args p pguri dumpSection filename)).returnCode = 0
  · exact ⟨by simp [pg_dump_db, h], fun hne => absurd h hne⟩
  · have hsnd : (pg_dump_db e p pguri dumpSection filename).2
        = LogEntry.commandLine (logged_command_line (pg_dump_args p pguri dumpSection filename)) ::
          LogEntry.pgDumpFailed (e.exec (pg_dump_args p pguri dumpSection filename)).returnCode ::
          log_program_output (e.exec (pg_dump_args p pguri dumpSection filename))
            LogLevel.error LogLevel.error := by
      simp [pg_dump_db, h]
    refine ⟨by simp [pg_dump_db, h], fun _ => ⟨by simp [pg_dump_db, h], ?_, ?_⟩⟩
    · intro line hline
      have hmem : LogEntry.programOutputLine LogLevel.error line
          ∈ log_program_output (e.exec (pg_dump_args p pguri dumpSection filename))
              LogLevel.error LogLevel.error := by
        cases hOut : (e.exec (pg_dump_args p pguri dumpSection filename)).stdOut with
        | none => rw [hOut] at hline; simp [splitLinesTake] at hline
        | some ls =>
          rw [hOut] at hline
          simp only [Option.getD_some] at hline
          simp only [log_program_output, hOut]
          exact List.mem_append.mpr (Or.inl (List.mem_map.mpr ⟨line, hline, rfl⟩))
      rw [hsnd]
      exact List.mem_cons_of_mem _ (List.mem_cons_of_mem _ hmem)
    · intro line hline
      have hmem : LogEntry.programOutputLine LogLevel.error line
          ∈ log_program_output (e.exec (pg_dump_args p pguri dumpSection filename))
              LogLevel.error LogLevel.error := by
        cases hErr : (e.exec (pg_dump_args p pguri dumpSection filename)).stdErr with
        | none => rw [hErr] at hline; simp [splitLinesTake] at hline
        | some ls =>
          rw [hErr] at hline
          simp only [Option.getD_some] at hline
          simp only [log_program_output, hErr]
          exact List.mem_append.mpr (Or.inr (List.mem_map.mpr ⟨line, hline, rfl⟩))
      rw [hsnd]
      exact List.mem_cons_of_mem _ (List.mem_cons_of_mem _ hmem)

/-- Witness for C9 at a concrete failing dump invocation. -/
theorem pg_dump_db_failure_reporting_witness :
    (pg_dump_db envDumpFails pgPathsZero "pguri" "pre-data" "/tmp/out.dump").1 = false ∧
    LogEntry.programOutputLine LogLevel.error "err line"
      ∈ (pg_dump_db envDumpFails pgPathsZero "pguri" "pre-data" "/tmp/out.dump").2 := by
  have h := (pg_dump_db_failure_reporting envDumpFails pgPathsZero
    "pguri" "pre-data" "/tmp/out.dump").2 (by decide)
  exact ⟨h.1, h.2.2 "err line" (by decide)⟩

/-- Appending strings appends their character lists. -/
theorem strData_append (a b : String) : (a ++ b).data = a.data ++ b.data := by
  cases a; cases b; rfl

/-- C6 counterexample: for a 1024-character argument vector the rendered
text is not shorter than the capacity, and the logged line (truncated
prefix plus three-character ellipsis) exceeds the buffer capacity. -/
theorem logged_command_line_counterexample :
    BUFSIZE ≤ (render_command_line [String.mk (List.replicate BUFSIZE 'a')]).data.length ∧
    ¬ (logged_command_line [String.mk (List.replicate BUFSIZE 'a')]).data.length ≤ BUFSIZE := by
  exact ⟨by decide, by decide⟩

/-- C6 amended: a rendering shorter than the capacity is logged in full;
otherwise the logged line is the first capacity−1 characters of the
rendering followed by the ellipsis marker, hence of length capacity+2
(exceeding the capacity by the two extra ellipsis characters). -/
theorem logged_command_line_spec (args : List String) :
    ((render_command_line args).data.length < BUFSIZE →
      logged_command_line args = render_command_line args) ∧
    (BUFSIZE ≤ (render_command_line args).data.length →
      (logged_command_line args).data
        = (render_command_line args).data.take (BUFSIZE - 1) ++ ['.', '.', '.'] ∧
      (∃ rest, (render_command_line args).data
        = (render_command_line args).data.take (BUFSIZE - 1) ++ rest) ∧
      (logged_command_line args).data.length = BUFSIZE + 2) := by
  constructor
  · intro h
    simp only [logged_command_line]
    rw [if_neg (by omega)]
  · intro h
    have hif : logged_command_line args
        = String.mk ((render_command_line args).data.take (BUFSIZE - 1)) ++ "..." := by
      simp only [logged_command_line]
      rw [if_pos h]
    have hdots : ("..." : String).data = ['.', '.', '.'] := by decide
    have hdata : (logged_command_line args).data
        = (render_command_line args).data.take (BUFSIZE - 1) ++ ['.', '.', '.'] := by
      rw [hif, strData_append, hdots]
    refine ⟨hdata,
      ⟨(render_command_line args).data.drop (BUFSIZE - 1),
        (List.take_append_drop _ _).symm⟩, ?_⟩
    rw [hdata]
    have h1 : ((render_command_line args).data.take (BUFSIZE - 1)).length = BUFSIZE - 1 := by
      rw [List.length_take]
      omega
    rw [List.length_append, h1]
    decide

/-- Witness for the amended C6: one short vector logged in full, one long
vector truncated to capacity+2 characters. -/
theorem logged_command_line_spec_witness :
    logged_command_line ["pg_dump", "-Fc"] = render_command_line ["pg_dump", "-Fc"] ∧
    (logged_command_line [String.mk (List.replicate BUFSIZE 'a')]).data.length
      = BUFSIZE + 2 :=
  ⟨(logged_command_line_spec ["pg_dump", "-Fc"]).1 (by decide),
   ((logged_command_line_spec [String.mk (List.replicate BUFSIZE 'a')]).2 (by decide)).2.2⟩

/-- An environment where two pg_config PATH entries deduplicate to one
whose bindir holds a working psql. -/
def envIndirectWorks : Env where
  pgConfigEnv := none
  fileExists := fun s => s == "/usr/bin/pg_config" || s == "/pg/bin/psql"
  exec := fun args =>
    if args = ["/usr/bin/pg_config", "--bindir"] then
      { returnCode := 0, error := 0, stdOut := some ["/pg/bin"], stdErr := none }
    else if args = ["/pg/bin/psql", "--version"] then
      { returnCode := 0, error := 0,
        stdOut := some ["psql (PostgreSQL) 14.9"], stdErr := none }
    else
      { returnCode := 1, error := 2, stdOut := none, stdErr := none }
  searchPathPsqlFirst := none
  searchPathPgConfig := some ["/usr/bin/pg_config", "/usr/local/bin/pg_config"]
  dedupe := fun l =>
    if l = ["/usr/bin/pg_config", "/usr/local/bin/pg_config"] then
      some ["/usr/bin/pg_config"]
    else
      some l

/-- C2: with exactly one configuration-reporting tool left after
deduplication (an existing file whose bindir query succeeds reporting the
single directory `d`), indirect resolution succeeds if and only if `d`
contains psql and that psql's version probe succeeds; on success the
selected client is that psql and the stored version string is the token
parsed from its version output. -/
theorem indirect_single_candidate_spec (e : Env) (p : PostgresPaths)
    (all : List String) (c d : String)
    (h1 : e.searchPathPgConfig = some all)
    (h2 : e.dedupe all = some [c])
    (h3 : e.fileExists c = true)
    (h4 : (e.exec [c, "--bindir"]).returnCode = 0)
    (h5 : (e.exec [c, "--bindir"]).stdOut = some [d]) :
    ((set_psql_from_pg_config e p).2.1 = true ↔
      (e.fileExists (join_path_components d "psql") = true ∧
        (psql_version e { p with psql := join_path_components d "psql" }).2.1 = true)) ∧
    ((set_psql_from_pg_config e p).2.1 = true →
      (set_psql_from_pg_config e p).1.psql = join_path_components d "psql" ∧
      parse_version_number
        ((e.exec [join_path_components d "psql", "--version"]).stdOut.getD [])
        = some (set_psql_from_pg_config e p).1.pg_version) := by
  have hbind : set_psql_from_config_bindir e p c
      = (if e.fileExists (join_path_components d "psql")
         then ({ p with psql := join_path_components d "psql" }, true, ([] : List LogEntry))
         else (p, false, [LogEntry.psqlNotFoundFromPgConfig p.psql c])) := by
    simp [set_psql_from_config_bindir, h3, h4, h5, splitLinesCount]
  by_cases hj : e.fileExists (join_path_components d "psql") = true
  · rw [if_pos hj] at hbind
    by_cases hp :
        (psql_version e { p with psql := join_path_components d "psql" }).2.1 = true
    · have hsucc : (set_psql_from_pg_config e p).2.1 = true := by
        simp [set_psql_from_pg_config, h1, h2, hbind, hp]
      have hfst : (set_psql_from_pg_config e p).1
          = (psql_version e { p with psql := join_path_components d "psql" }).1 := by
        simp [set_psql_from_pg_config, h1, h2, hbind, hp]
      refine ⟨⟨fun _ => ⟨hj, hp⟩, fun _ => hsucc⟩, fun _ => ⟨?_, ?_⟩⟩
      · rw [hfst, psql_version_ok_psql hp]
      · rw [hfst]
        exact psql_version_ok_parse hp
    · have hfail : (set_psql_from_pg_config e p).2.1 = false := by
        simp [set_psql_from_pg_config, h1, h2, hbind, hp]
      refine ⟨⟨fun hs => ?_, fun hc2 => absurd hc2.2 hp⟩, fun hs => ?_⟩
      · rw [hs] at hfail; simp at hfail
      · rw [hs] at hfail; simp at hfail
  · rw [if_neg hj] at hbind
    have hfail : (set_psql_from_pg_config e p).2.1 = false := by
      simp [set_psql_from_pg_config, h1, h2, hbind]
    refine ⟨⟨fun hs => ?_, fun hc2 => absurd hc2.1 hj⟩, fun hs => ?_⟩
    · rw [hs] at hfail; simp at hfail
    · rw [hs] at hfail; simp at hfail

/-- Witness for C2 at a concrete successful indirect resolution. -/
theorem indirect_single_candidate_spec_witness :
    (set_psql_from_pg_config envIndirectWorks pgPathsZero).2.1 = true ∧
    (set_psql_from_pg_config envIndirectWorks pgPathsZero).1.psql = "/pg/bin/psql" ∧
    parse_version_number
      ((envIndirectWorks.exec ["/pg/bin/psql", "--version"]).stdOut.getD [])
      = some (set_psql_from_pg_config envIndirectWorks pgPathsZero).1.pg_version := by
  have h := indirect_single_candidate_spec envIndirectWorks pgPathsZero
    ["/usr/bin/pg_config", "/usr/local/bin/pg_config"] "/usr/bin/pg_config" "/pg/bin"
    rfl (by decide) (by decide) (by decide) (by decide)
  have hs : (set_psql_from_pg_config envIndirectWorks pgPathsZero).2.1 = true :=
    h.1.mpr ⟨by decide, by decide⟩
  obtain ⟨hpsql, hparse⟩ := h.2 hs
  have hjoin : join_path_components "/pg/bin" "psql" = "/pg/bin/psql" := by decide
  rw [hjoin] at hpsql hparse
  exact ⟨hs, hpsql, hparse⟩

/-! ## Counting log entries (for the ambiguous-candidate diagnostics) -/

/-- Number of occurrences of a log entry in a trace. -/
def countEntry (x : LogEntry) : List LogEntry → Nat
  | [] => 0
  | y :: ys => (if y = x then 1 else 0) + countEntry x ys

theorem countEntry_append (x : LogEntry) (l1 l2 : List LogEntry) :
    countEntry x (l1 ++ l2) = countEntry x l1 + countEntry x l2 := by
  induction l1 with
  | nil => simp [countEntry]
  | cons y ys ih => simp [countEntry, ih]; omega

theorem countEntry_eq_zero_of_not_mem {x : LogEntry} {l : List LogEntry}
    (h : x ∉ l) : countEntry x l = 0 := by
  induction l with
  | nil => rfl
  | cons y ys ih =>
    have hxy : y ≠ x := fun he => h (he ▸ List.mem_cons_self y ys)
    have hys : x ∉ ys := fun hm => h (List.mem_cons_of_mem y hm)
    simp [countEntry, hxy, ih hys]

/-- The internal log records of `psql_version` are one of three fixed
shapes, none of which is a candidate diagnostic. -/
theorem psql_version_logs_shape (e : Env) (p : PostgresPaths) :
    (psql_version e p).2.2 = [] ∨
    (psql_version e p).2.2 = [LogEntry.psqlVersionRunError p.psql] ∨
    (psql_version e p).2.2 = [LogEntry.versionParseError] := by
  by_cases h : (e.exec [p.psql, "--version"]).returnCode = 0
  · cases hp : parse_version_number ((e.exec [p.psql, "--version"]).stdOut.getD []) with
    | none => right; right; simp [psql_version, h, hp]
    | some v => left; simp [psql_version, h, hp]
  · right; left; simp [psql_version, h]

theorem psql_version_logs_no_candidate (e : Env) (p : PostgresPaths) (c v : String) :
    LogEntry.candidateFound c v ∉ (psql_version e p).2.2 ∧
    LogEntry.candidateVersionWarn c ∉ (psql_version e p).2.2 := by
  rcases psql_version_logs_shape e p with h | h | h <;> rw [h] <;> exact ⟨by simp, by simp⟩

/-- The boolean outcome of probing one ambiguous candidate. -/
def candidateProbeOK (e : Env) (c : String) : Bool :=
  (psql_version e (candidatePgPaths c)).2.1

/-- The version string probed from one ambiguous candidate. -/
def candidateVersion (e : Env) (c : String) : String :=
  (psql_version e (candidatePgPaths c)).1.pg_version

theorem probe_candidates_not_mem (e : Env) (c : String) (cs : List String)
    (hnot : c ∉ cs) :
    (∀ v, LogEntry.candidateFound c v ∉ probe_candidates e cs) ∧
    LogEntry.candidateVersionWarn c ∉ probe_candidates e cs := by
  induction cs with
  | nil => simp [probe_candidates]
  | cons a rest ih =>
    have hne : c ≠ a := fun h => hnot (h ▸ List.mem_cons_self a rest)
    have hrest : c ∉ rest := fun h => hnot (List.mem_cons_of_mem a h)
    obtain ⟨ih1, ih2⟩ := ih hrest
    constructor
    · intro v
      simp only [probe_candidates, List.mem_append]
      rintro ((h | h) | h)
      · exact (psql_version_logs_no_candidate e (candidatePgPaths a) c v).1 h
      · by_cases hok : (psql_version e (candidatePgPaths a)).2.1 = true
        · rw [if_pos hok] at h
          simp only [List.mem_singleton, LogEntry.candidateFound.injEq] at h
          apply hne
          rw [h.1, psql_version_ok_psql hok]
          rfl
        · rw [if_neg hok] at h
          simp at h
      · exact ih1 v h
    · simp only [probe_candidates, List.mem_append]
      rintro ((h | h) | h)
      · exact (psql_version_logs_no_candidate e (candidatePgPaths a) c "").2 h
      · by_cases hok : (psql_version e (candidatePgPaths a)).2.1 = true
        · rw [if_pos hok] at h
          simp at h
        · rw [if_neg hok] at h
          simp only [List.mem_singleton, LogEntry.candidateVersionWarn.injEq] at h
          exact hne h
      · exact ih2 h

theorem probe_candidates_warn_mem (e : Env) (c : String) (cs : List String)
    (hmem : c ∈ cs)
    (hfail : (psql_version e (candidatePgPaths c)).2.1 = false) :
    LogEntry.candidateVersionWarn c ∈ probe_candidates e cs := by
  induction cs with
  | nil => cases hmem
  | cons a rest ih =>
    rcases List.mem_cons.mp hmem with rfl | hmem2
    · simp only [probe_candidates, List.mem_append]
      left; right
      rw [if_neg (by rw [hfail]; simp)]
      simp
    · simp only [probe_candidates, List.mem_append]
      right
      exact ih hmem2

theorem probe_candidates_no_found_of_fail (e : Env) (c : String) (cs : List String)
    (hfail : (psql_version e (candidatePgPaths c)).2.1 = false) :
    ∀ v, LogEntry.candidateFound c v ∉ probe_candidates e cs := by
  induction cs with
  | nil => intro v; simp [probe_candidates]
  | cons a rest ih =>
    intro v
    simp only [probe_candidates, List.mem_append]
    rintro ((h | h) | h)
    · exact (psql_version_logs_no_candidate e (candidatePgPaths a) c v).1 h
    · by_cases hok : (psql_version e (candidatePgPaths a)).2.1 = true
      · rw [if_pos hok] at h
        simp only [List.mem_singleton, LogEntry.candidateFound.injEq] at h
        have hca : c = a := by rw [h.1, psql_version_ok_psql hok]; rfl
        rw [hca] at hfail
        rw [hok] at hfail
        cases hfail
      · rw [if_neg hok] at h
        simp at h
    · exact ih v h

theorem probe_candidates_count_found (e : Env) (c : String) (cs : List String)
    (hmem : c ∈ cs) (hnd : cs.Nodup)
    (hok : (psql_version e (candidatePgPaths c)).2.1 = true) :
    countEntry
      (LogEntry.candidateFound c ((psql_version e (candidatePgPaths c)).1.pg_version))
      (probe_candidates e cs) = 1 := by
  induction cs with
  | nil => cases hmem
  | cons a rest ih =>
    simp only [probe_candidates]
    rw [countEntry_append, countEntry_append]
    rcases List.mem_cons.mp hmem with rfl | hmem2
    · have hrest : c ∉ rest := (List.nodup_cons.mp hnd).1
      have h0 : countEntry
          (LogEntry.candidateFound c ((psql_version e (candidatePgPaths c)).1.pg_version))
          (psql_version e (candidatePgPaths c)).2.2 = 0 :=
        countEntry_eq_zero_of_not_mem
          ((psql_version_logs_no_candidate e (candidatePgPaths c) c _).1)
      have h2 : countEntry
          (LogEntry.candidateFound c ((psql_version e (candidatePgPaths c)).1.pg_version))
          (probe_candidates e rest) = 0 :=
        countEntry_eq_zero_of_not_mem ((probe_candidates_not_mem e c rest hrest).1 _)
      have hpsql : (psql_version e (candidatePgPaths c)).1.psql = c := by
        rw [psql_version_ok_psql hok]
        rfl
      rw [h0, h2, if_pos hok, hpsql]
      simp [countEntry]
    · have hand := List.nodup_cons.mp hnd
      have hna : a ≠ c := fun h => hand.1 (h ▸ hmem2)
      have h0 : countEntry
          (LogEntry.candidateFound c ((psql_version e (candidatePgPaths c)).1.pg_version))
          (psql_version e (candidatePgPaths a)).2.2 = 0 :=
        countEntry_eq_zero_of_not_mem
          ((psql_version_logs_no_candidate e (candidatePgPaths a) c _).1)
      have h1 : countEntry
          (LogEntry.candidateFound c ((psql_version e (candidatePgPaths c)).1.pg_version))
          (if (psql_version e (candidatePgPaths a)).2.1 = true
           then [LogEntry.candidateFound (psql_version e (candidatePgPaths a)).1.psql
                   (psql_version e (candidatePgPaths a)).1.pg_version]
           else [LogEntry.candidateVersionWarn a]) = 0 := by
        by_cases haok : (psql_version e (candidatePgPaths a)).2.1 = true
        · rw [if_pos haok]
          have hpa : (psql_version e (candidatePgPaths a)).1.psql = a := by
            rw [psql_version_ok_psql haok]
            rfl
          rw [hpa]
          simp [countEntry, hna]
        · rw [if_neg haok]
          simp [countEntry]
      rw [h0, h1]
      simpa using ih hmem2 hand.2

/-- An environment with two distinct pg_config candidates on PATH, one of
which probes successfully while the other's probe fails. -/
def envAmbiguous : Env where
  pgConfigEnv := none
  fileExists := fun _ => true
  exec := fun args =>
    if args = ["/a/pg_config", "--version"] then
      { returnCode := 0, error := 0,
        stdOut := some ["pg_config (PostgreSQL) 14.9"], stdErr := none }
    else
      { returnCode := 1, error := 2, stdOut := none, stdErr := none }
  searchPathPsqlFirst := none
  searchPathPgConfig := some ["/a/pg_config", "/b/pg_config"]
  dedupe := fun l => some l

/-- C3: with two or more distinct pg_config candidates surviving
deduplication, indirect resolution fails with the record untouched; the
diagnostic trace contains exactly one path-and-version entry per candidate
whose version probe succeeded, a warning (and no version entry) per
candidate whose probe failed — the enumeration is not aborted — and the
hint to export PG_CONFIG. -/
theorem ambiguous_pg_config_diagnostics (e : Env) (p : PostgresPaths)
    (all cs : List String)
    (h1 : e.searchPathPgConfig = some all)
    (h2 : e.dedupe all = some cs)
    (hlen : 2 ≤ cs.length) (hnd : cs.Nodup) :
    (set_psql_from_pg_config e p).2.1 = false ∧
    (set_psql_from_pg_config e p).1 = p ∧
    LogEntry.hintExportPgConfig ∈ (set_psql_from_pg_config e p).2.2 ∧
    ∀ c ∈ cs,
      (candidateProbeOK e c = true →
        countEntry (LogEntry.candidateFound c (candidateVersion e c))
          (set_psql_from_pg_config e p).2.2 = 1) ∧
      (candidateProbeOK e c = false →
        LogEntry.candidateVersionWarn c ∈ (set_psql_from_pg_config e p).2.2 ∧
        ∀ v, LogEntry.candidateFound c v ∉ (set_psql_from_pg_config e p).2.2) := by
  rcases cs with _ | ⟨c1, _ | ⟨c2, rest⟩⟩
  · simp at hlen
  · simp at hlen
  · have hres : set_psql_from_pg_config e p
        = (p, false, LogEntry.morePgConfigEntries ::
            (probe_candidates e (c1 :: c2 :: rest) ++ [LogEntry.hintExportPgConfig])) := by
      simp [set_psql_from_pg_config, h1, h2]
    rw [hres]
    refine ⟨rfl, rfl, by simp, ?_⟩
    intro c hc
    constructor
    · intro hokB
      have hok : (psql_version e (candidatePgPaths c)).2.1 = true := hokB
      show countEntry
          (LogEntry.candidateFound c ((psql_version e (candidatePgPaths c)).1.pg_version))
          (LogEntry.morePgConfigEntries ::
            (probe_candidates e (c1 :: c2 :: rest) ++ [LogEntry.hintExportPgConfig])) = 1
      simp only [countEntry, countEntry_append]
      rw [probe_candidates_count_found e c (c1 :: c2 :: rest) hc hnd hok]
      simp [countEntry]
    · intro hfailB
      have hfail : (psql_version e (candidatePgPaths c)).2.1 = false := hfailB
      constructor
      · refine List.mem_cons.mpr (Or.inr (List.mem_append.mpr (Or.inl ?_)))
        exact probe_candidates_warn_mem e c _ hc hfail
      · intro v hv
        rcases List.mem_cons.mp hv with h | hv2
        · simp at h
        · rcases List.mem_append.mp hv2 with h | h
          · exact probe_candidates_no_found_of_fail e c _ hfail v h
          · simp at h

/-- Witness for C3 at a concrete ambiguous environment. -/
theorem ambiguous_pg_config_diagnostics_witness :
    (set_psql_from_pg_config envAmbiguous pgPathsZero).2.1 = false ∧
    countEntry
      (LogEntry.candidateFound "/a/pg_config" (candidateVersion envAmbiguous "/a/pg_config"))
      (set_psql_from_pg_config envAmbiguous pgPathsZero).2.2 = 1 ∧
    LogEntry.candidateVersionWarn "/b/pg_config"
      ∈ (set_psql_from_pg_config envAmbiguous pgPathsZero).2.2 := by
  have h := ambiguous_pg_config_diagnostics envAmbiguous pgPathsZero
    ["/a/pg_config", "/b/pg_config"] ["/a/pg_config", "/b/pg_config"]
    rfl (by decide) (by decide) (by decide)
  refine ⟨h.1, ?_, ?_⟩
  · exact (h.2.2.2 "/a/pg_config" (by decide)).1 (by decide)
  · exact ((h.2.2.2 "/b/pg_config" (by decide)).2 (by decide)).1

/-! ## Independence of resolution from the existence of derived siblings

The derivation of the dump/restore tool paths consults the filesystem at
no point; formally, replacing the `fileExists` collaborator at the two
derived sibling paths (and nowhere else) cannot change the outcome of a
successful resolution, provided neither the PG_CONFIG value nor a
deduplicated pg_config candidate happens to collide with one of the two
derived names. -/

/-- The environment with its filesystem-existence collaborator replaced. -/
def withFE (e : Env) (f : String → Bool) : Env :=
  { e with fileExists := f }

/-- The directory reported by `pg_config --bindir` as the code reads it
(first line of the captured output). -/
def reported_bindir (e : Env) (cfg : String) : String :=
  ((e.exec [cfg, "--bindir"]).stdOut.getD []).headD ""

theorem psql_version_withFE (e : Env) (f : String → Bool) (p : PostgresPaths) :
    psql_version (withFE e f) p = psql_version e p := rfl

theorem probe_candidates_withFE (e : Env) (f : String → Bool) (cs : List String) :
    probe_candidates (withFE e f) cs = probe_candidates e cs := by
  induction cs with
  | nil => rfl
  | cons a rest ih => simp only [probe_candidates, psql_version_withFE, ih]

theorem bindir_withFE (e : Env) (f : String → Bool) (p : PostgresPaths) (cfg : String)
    (hcfg : f cfg = e.fileExists cfg)
    (hjoin : f (join_path_components (reported_bindir e cfg) "psql")
      = e.fileExists (join_path_components (reported_bindir e cfg) "psql")) :
    set_psql_from_config_bindir (withFE e f) p cfg
      = set_psql_from_config_bindir e p cfg := by
  have hex : (withFE e f).exec = e.exec := rfl
  have hfe : (withFE e f).fileExists = f := rfl
  simp only [reported_bindir] at hjoin
  simp only [set_psql_from_config_bindir, hex, hfe]
  rw [hcfg, hjoin]

theorem pgCONFIG_withFE (e : Env) (f : String → Bool) (p : PostgresPaths)
    (hv : ∀ v, e.pgConfigEnv = some v →
      f v = e.fileExists v ∧
      f (join_path_components (reported_bindir e v) "psql")
        = e.fileExists (join_path_components (reported_bindir e v) "psql")) :
    set_psql_from_PG_CONFIG (withFE e f) p = set_psql_from_PG_CONFIG e p := by
  have hpe : (withFE e f).pgConfigEnv = e.pgConfigEnv := rfl
  cases hvv : e.pgConfigEnv with
  | none => simp only [set_psql_from_PG_CONFIG, hpe, hvv]
  | some v =>
    obtain ⟨h1, h2⟩ := hv v hvv
    have hb := bindir_withFE e f p v h1 h2
    have hfe : (withFE e f).fileExists v = e.fileExists v := h1
    simp only [set_psql_from_PG_CONFIG, hpe, hvv, hfe, hb, psql_version_withFE]

theorem pg_config_withFE (e : Env) (f : String → Bool) (p : PostgresPaths)
    (hc : ∀ all cs, e.searchPathPgConfig = some all → e.dedupe all = some cs →
      ∀ c ∈ cs, f c = e.fileExists c ∧
        f (join_path_components (reported_bindir e c) "psql")
          = e.fileExists (join_path_components (reported_bindir e c) "psql")) :
    set_psql_from_pg_config (withFE e f) p = set_psql_from_pg_config e p := by
  have hsp : (withFE e f).searchPathPgConfig = e.searchPathPgConfig := rfl
  have hde : (withFE e f).dedupe = e.dedupe := rfl
  cases hs : e.searchPathPgConfig with
  | none => simp only [set_psql_from_pg_config, hsp, hs]
  | some all =>
    cases hd : e.dedupe all with
    | none => simp only [set_psql_from_pg_config, hsp, hs, hde, hd]
    | some cs =>
      rcases cs with _ | ⟨c, _ | ⟨c2, rest⟩⟩
      · simp only [set_psql_from_pg_config, hsp, hs, hde, hd]
      · obtain ⟨h1, h2⟩ := hc all [c] hs hd c (List.mem_singleton_self c)
        have hb := bindir_withFE e f p c h1 h2
        simp only [set_psql_from_pg_config, hsp, hs, hde, hd, hb, psql_version_withFE]
      · simp only [set_psql_from_pg_config, hsp, hs, hde, hd, probe_candidates_withFE]

theorem find_PATH_withFE (e : Env) (f : String → Bool) (p1 : PostgresPaths)
    (hc : ∀ all cs, e.searchPathPgConfig = some all → e.dedupe all = some cs →
      ∀ c ∈ cs, f c = e.fileExists c ∧
        f (join_path_components (reported_bindir e c) "psql")
          = e.fileExists (join_path_components (reported_bindir e c) "psql")) :
    find_pg_commands_PATH (withFE e f) p1 = find_pg_commands_PATH e p1 := by
  have hsp : (withFE e f).searchPathPsqlFirst = e.searchPathPsqlFirst := rfl
  cases hq : e.searchPathPsqlFirst with
  | some q => simp only [find_pg_commands_PATH, hsp, hq, psql_version_withFE]
  | none =>
    have hpc := pg_config_withFE e f p1 hc
    simp only [find_pg_commands_PATH, hsp, hq, hpc]

theorem find_withFE (e : Env) (f : String → Bool) (p : PostgresPaths)
    (hv : ∀ v, e.pgConfigEnv = some v →
      f v = e.fileExists v ∧
      f (join_path_components (reported_bindir e v) "psql")
        = e.fileExists (join_path_components (reported_bindir e v) "psql"))
    (hc : ∀ all cs, e.searchPathPgConfig = some all → e.dedupe all = some cs →
      ∀ c ∈ cs, f c = e.fileExists c ∧
        f (join_path_components (reported_bindir e c) "psql")
          = e.fileExists (join_path_components (reported_bindir e c) "psql")) :
    find_pg_commands (withFE e f) p = find_pg_commands e p := by
  have h1 := pgCONFIG_withFE e f p hv
  have h2 := find_PATH_withFE e f (set_psql_from_PG_CONFIG e p).1 hc
  simp only [find_pg_commands, h1, h2]

theorem lastc_append (l1 l2 : List Char) (h : l2 ≠ []) :
    lastc (l1 ++ l2) = lastc l2 := by
  induction l1 with
  | nil => rfl
  | cons c cs ih =>
    rw [List.cons_append]
    cases hcs : cs ++ l2 with
    | nil =>
      exact absurd (List.append_eq_nil.mp hcs).2 h
    | cons d ds =>
      rw [show lastc (c :: d :: ds) = lastc (d :: ds) from rfl, ← hcs, ih]

theorem lastc_str_append (a s : String) (h : s.data ≠ []) :
    lastc ((a ++ s).data) = lastc s.data := by
  rw [strData_append]
  exact lastc_append a.data s.data h

/-- A path ending in the psql file name never coincides with a derived
dump-tool path (their final characters differ). -/
theorem join_psql_ne_dump (a b : String) :
    join_path_components a "psql" ≠ path_in_same_directory b "pg_dump" := by
  intro h
  have h1 : lastc ((a ++ "/" ++ "psql").data) = some 'l' := by
    rw [lastc_str_append (a ++ "/") "psql" (by decide)]
    decide
  have h2 : lastc ((dirname b ++ "/" ++ "pg_dump").data) = some 'p' := by
    rw [lastc_str_append (dirname b ++ "/") "pg_dump" (by decide)]
    decide
  rw [show join_path_components a "psql" = a ++ "/" ++ "psql" from rfl] at h
  rw [show path_in_same_directory b "pg_dump" = dirname b ++ "/" ++ "pg_dump" from rfl] at h
  rw [h] at h1
  rw [h1] at h2
  simp at h2

/-- A path ending in the psql file name never coincides with a derived
restore-tool path (their final characters differ). -/
theorem join_psql_ne_restore (a b : String) :
    join_path_components a "psql" ≠ path_in_same_directory b "pg_restore" := by
  intro h
  have h1 : lastc ((a ++ "/" ++ "psql").data) = some 'l' := by
    rw [lastc_str_append (a ++ "/") "psql" (by decide)]
    decide
  have h2 : lastc ((dirname b ++ "/" ++ "pg_restore").data) = some 'e' := by
    rw [lastc_str_append (dirname b ++ "/") "pg_restore" (by decide)]
    decide
  rw [show join_path_components a "psql" = a ++ "/" ++ "psql" from rfl] at h
  rw [show path_in_same_directory b "pg_restore" = dirname b ++ "/" ++ "pg_restore" from rfl] at h
  rw [h] at h1
  rw [h1] at h2
  simp at h2

/-- An environment resolving psql directly from PATH, whose filesystem
holds only the psql binary. -/
def envSiblingFlip : Env where
  pgConfigEnv := none
  fileExists := fun s => s == "/u/psql"
  exec := fun args =>
    if args = ["/u/psql", "--version"] then
      { returnCode := 0, error := 0,
        stdOut := some ["psql (PostgreSQL) 14.9"], stdErr := none }
    else
      { returnCode := 1, error := 2, stdOut := none, stdErr := none }
  searchPathPsqlFirst := some "/u/psql"
  searchPathPgConfig := none
  dedupe := fun l => some l

/-- The record resolved in `envSiblingFlip`. -/
def pgSiblingOut : PostgresPaths :=
  { psql := "/u/psql", pg_dump := "/u/pg_dump",
    pg_restore := "/u/pg_restore", pg_version := "14.9" }

/-- A filesystem valuation agreeing with `envSiblingFlip` everywhere
except that both derived sibling paths now exist. -/
def flippedFE : String → Bool :=
  fun s => s == "/u/psql" || s == "/u/pg_dump" || s == "/u/pg_restore"

/-- C8: for every successful resolution, the dump- and restore-tool paths
are derived by replacing the file name within the selected client's
directory with the fixed names, and the derivation performs no filesystem
existence check: changing the filesystem-existence collaborator at exactly
the two derived paths (assuming neither collides with the PG_CONFIG value
or a deduplicated pg_config candidate) leaves the resolution outcome
unchanged. -/
theorem sibling_derivation_no_existence_check
    (e : Env) (p : PostgresPaths) (out : PostgresPaths) (f : String → Bool)
    (hok : (find_pg_commands e p).1 = FindOutcome.ok out)
    (hf : ∀ s, s ≠ out.pg_dump → s ≠ out.pg_restore → f s = e.fileExists s)
    (hv : ∀ v, e.pgConfigEnv = some v → v ≠ out.pg_dump ∧ v ≠ out.pg_restore)
    (hc : ∀ all cs c, e.searchPathPgConfig = some all → e.dedupe all = some cs →
      c ∈ cs → c ≠ out.pg_dump ∧ c ≠ out.pg_restore) :
    out.pg_dump = path_in_same_directory out.psql "pg_dump" ∧
    out.pg_restore = path_in_same_directory out.psql "pg_restore" ∧
    (find_pg_commands (withFE e f) p).1 = FindOutcome.ok out := by
  obtain ⟨hd, hr, _⟩ := find_ok_spec e p out hok
  refine ⟨hd, hr, ?_⟩
  have hjoin_ne : ∀ x : String,
      f (join_path_components x "psql") = e.fileExists (join_path_components x "psql") := by
    intro x
    apply hf
    · rw [hd]; exact join_psql_ne_dump x out.psql
    · rw [hr]; exact join_psql_ne_restore x out.psql
  have hv2 : ∀ v, e.pgConfigEnv = some v →
      f v = e.fileExists v ∧
      f (join_path_components (reported_bindir e v) "psql")
        = e.fileExists (join_path_components (reported_bindir e v) "psql") := by
    intro v hvv
    obtain ⟨hnd, hnr⟩ := hv v hvv
    exact ⟨hf v hnd hnr, hjoin_ne _⟩
  have hc2 : ∀ all cs, e.searchPathPgConfig = some all → e.dedupe all = some cs →
      ∀ c ∈ cs, f c = e.fileExists c ∧
        f (join_path_components (reported_bindir e c) "psql")
          = e.fileExists (join_path_components (reported_bindir e c) "psql") := by
    intro all cs hs hdd c hcm
    obtain ⟨hnd, hnr⟩ := hc all cs c hs hdd hcm
    exact ⟨hf c hnd hnr, hjoin_ne _⟩
  rw [find_withFE e f p hv2 hc2]
  exact hok

/-- Witness for C8 at a concrete environment: flipping the existence of
both derived sibling paths leaves the successful outcome intact. -/
theorem sibling_derivation_no_existence_check_witness :
    pgSiblingOut.pg_dump = path_in_same_directory pgSiblingOut.psql "pg_dump" ∧
    (find_pg_commands (withFE envSiblingFlip flippedFE) pgPathsZero).1
      = FindOutcome.ok pgSiblingOut := by
  have h := sibling_derivation_no_existence_check envSiblingFlip pgPathsZero
    pgSiblingOut flippedFE
    (by decide)
    (by
      intro s h1 h2
      show (s == "/u/psql" || s == "/u/pg_dump" || s == "/u/pg_restore")
          = (s == "/u/psql")
      have e1 : (s == "/u/pg_dump") = false := beq_eq_false_iff_ne.mpr h1
      have e2 : (s == "/u/pg_restore") = false := beq_eq_false_iff_ne.mpr h2
      rw [e1, e2]
      simp)
    (fun v hvv => Option.noConfusion hvv)
    (fun all cs c hs => Option.noConfusion hs)
  exact ⟨h.1, h.2.2⟩

end Pgcmd
